import Mathlib

/-!
Verification of the NOTIFAREF reminder scheduling and notification delivery
engine.  The definitions below are a shallow embedding of the backend services:
the `Reminder` Mongoose model (statics and methods), the `NotificationService`
(web push / email delivery orchestrator) and the `SchedulerService` periodic
tasks (due-reminder processing, recurrence processing, cleanup).

Instants are modelled as `Int` milliseconds since the Unix epoch; the server
runs its cron jobs in UTC, so JavaScript `Date` calendar operations
(`setDate`, `setMonth`, `setFullYear`) are modelled with exact proleptic
Gregorian civil-calendar arithmetic over UTC milliseconds.
-/

namespace Notifaref

/-! ## Calendar model: JavaScript `Date` arithmetic in UTC -/

/-- Milliseconds per day. -/
def msPerDay : Int := 86400000

/-- Convert a day count (days since 1970-01-01) to a civil date
`(year, month 1..12, day 1..31)`, proleptic Gregorian. -/
def civilFromDays (z : Int) : Int × Int × Int :=
  let z' := z + 719468
  let era := z'.fdiv 146097
  let doe := z' - era * 146097
  let yoe := (doe - doe.fdiv 1460 + doe.fdiv 36524 - doe.fdiv 146096).fdiv 365
  let y := yoe + era * 400
  let doy := doe - (365 * yoe + yoe.fdiv 4 - yoe.fdiv 100)
  let mp := (5 * doy + 2).fdiv 153
  let d := doy - (153 * mp + 2).fdiv 5 + 1
  let m := mp + (if mp < 10 then 3 else -9)
  (y + (if m ≤ 2 then 1 else 0), m, d)

/-- Convert a civil date `(year, month 1..12, day)` to a day count since the
epoch; an out-of-range `day` overflows into adjacent months exactly as a
JavaScript `Date` normalises it. -/
def daysFromCivil (y m d : Int) : Int :=
  let y' := y - (if m ≤ 2 then 1 else 0)
  let era := y'.fdiv 400
  let yoe := y' - era * 400
  let mp := m + (if m > 2 then -3 else 9)
  let doy := (153 * mp + 2).fdiv 5 + d - 1
  let doe := yoe * 365 + yoe.fdiv 4 - yoe.fdiv 100 + doy
  era * 146097 + doe - 719468

/-- `Date.prototype.getFullYear` (UTC). -/
def getFullYear (t : Int) : Int := (civilFromDays (t.fdiv msPerDay)).1

/-- `Date.prototype.getMonth` (UTC, 0-based as in JavaScript). -/
def getMonth (t : Int) : Int := (civilFromDays (t.fdiv msPerDay)).2.1 - 1

/-- `Date.prototype.getDate` (UTC, day of month 1..31). -/
def getDate (t : Int) : Int := (civilFromDays (t.fdiv msPerDay)).2.2

/-- The time-of-day component of an instant, in milliseconds. -/
def timeOfDay (t : Int) : Int := t.emod msPerDay

/-- Rebuild an instant from a (possibly denormalised) year / 0-based month /
day-of-month triple and a time of day, with JavaScript `Date` overflow
normalisation for both month and day. -/
def mkTime (y m d tod : Int) : Int :=
  let y' := y + m.fdiv 12
  let m' := m.emod 12
  (daysFromCivil y' (m' + 1) 1 + (d - 1)) * msPerDay + tod

/-- `d.setDate(n)`: replace the day-of-month, normalising overflow. -/
def setDate (t n : Int) : Int := mkTime (getFullYear t) (getMonth t) n (timeOfDay t)

/-- `d.setMonth(n)`: replace the 0-based month, normalising overflow. -/
def setMonth (t n : Int) : Int := mkTime (getFullYear t) n (getDate t) (timeOfDay t)

/-- `d.setFullYear(n)`: replace the year. -/
def setFullYear (t n : Int) : Int := mkTime n (getMonth t) (getDate t) (timeOfDay t)

/-! ## Data model: the `Reminder` document (backend/models/Reminder.js) -/

/-- `recurrence.type` enum: `['none', 'daily', 'weekly', 'monthly', 'yearly']`. -/
inductive RecType
  | none | daily | weekly | monthly | yearly
deriving DecidableEq

/-- The `recurrence` sub-document of a reminder. -/
structure Recurrence where
  type : RecType
  interval : Nat
  daysOfWeek : List Nat
  endDate : Option Int
  maxOccurrences : Option Nat
deriving DecidableEq

/-- `status` enum: `['pending', 'completed', 'cancelled', 'snoozed']`. -/
inductive RStatus
  | pending | completed | cancelled | snoozed
deriving DecidableEq

/-- One channel's per-reminder delivery record
(`notifications.webPush` / `notifications.email`). -/
structure DeliveryRecord where
  sent : Bool
  sentAt : Option Int
  error : Option String
deriving DecidableEq

/-- The `notifications` sub-document of a reminder. -/
structure ReminderNotifs where
  webPush : DeliveryRecord
  email : DeliveryRecord
deriving DecidableEq

/-- The `sharing` sub-document of a reminder. -/
structure Sharing where
  isShared : Bool
  shareToken : Option String
  sharedBy : Option Nat
  sharedAt : Option Int
  expiresAt : Option Int
deriving DecidableEq

/-- The `metadata` sub-document of a reminder. -/
structure RMetadata where
  completedAt : Option Int
  snoozeUntil : Option Int
  snoozeCount : Nat
  viewCount : Nat
  source : String
deriving DecidableEq

/-- A `Reminder` document.  `id` stands for the Mongo `_id`, `user` for the
owning user's `_id`; `updatedAt` is the Mongoose `timestamps: true` field. -/
structure Reminder where
  id : Nat
  user : Nat
  title : String
  description : Option String
  scheduledTime : Int
  recurrence : Recurrence
  tags : List String
  priority : String
  status : RStatus
  notifications : ReminderNotifs
  sharing : Sharing
  metadata : RMetadata
  updatedAt : Int
deriving DecidableEq

/-! ## Reminder methods and statics (backend/models/Reminder.js) -/

/-- `reminderSchema.methods.snooze = function(minutes = 15) { ... }`:
sets `status = 'snoozed'`, `metadata.snoozeUntil = Date.now() + minutes*60*1000`,
and increments `metadata.snoozeCount`. -/
def Reminder.snooze (r : Reminder) (now : Int) (minutes : Nat) : Reminder :=
  { r with
    status := RStatus.snoozed
    metadata := { r.metadata with
      snoozeUntil := some (now + (minutes : Int) * 60 * 1000)
      snoozeCount := r.metadata.snoozeCount + 1 } }

/-- `reminder.snooze()` with the default argument `minutes = 15`. -/
def Reminder.snoozeDefault (r : Reminder) (now : Int) : Reminder :=
  r.snooze now 15

/-- `reminderSchema.methods.generateNextOccurrence`: advances `scheduledTime`
by the recurrence interval in the recurrence's calendar unit, returning `none`
for non-recurring reminders and when the next instant exceeds
`recurrence.endDate` (when set).  The code reads no other recurrence field. -/
def Reminder.generateNextOccurrence (r : Reminder) : Option Int :=
  if r.recurrence.type = RecType.none then none
  else
    let t := r.scheduledTime
    let next :=
      match r.recurrence.type with
      | RecType.daily => setDate t (getDate t + (r.recurrence.interval : Int))
      | RecType.weekly => setDate t (getDate t + 7 * (r.recurrence.interval : Int))
      | RecType.monthly => setMonth t (getMonth t + (r.recurrence.interval : Int))
      | RecType.yearly => setFullYear t (getFullYear t + (r.recurrence.interval : Int))
      | RecType.none => t
    match r.recurrence.endDate with
    | some e => if next > e then none else some next
    | none => some next

/-- The `$or` filter of `reminderSchema.statics.findDueReminders`: pending and
scheduled at or before `now`, or snoozed with `metadata.snoozeUntil` present
and at or before `now`. -/
def isDueQuery (now : Int) (r : Reminder) : Bool :=
  (r.status == RStatus.pending && r.scheduledTime ≤ now) ||
  (r.status == RStatus.snoozed &&
    match r.metadata.snoozeUntil with
    | some s => s ≤ now
    | none => false)

/-- `Reminder.findDueReminders()`: a read-only `find` over the store with the
due filter. -/
def findDueReminders (rs : List Reminder) (now : Int) : List Reminder :=
  rs.filter (isDueQuery now)

/-! ## Data model: the `User` document, notification-relevant projection
(backend/models/User.js) -/

/-- `user.notifications.webPush`: channel flag and the stored push
subscription (endpoint + keys, abstracted to an identifier). -/
structure WebPushSettings where
  enabled : Bool
  subscription : Option Nat
deriving DecidableEq

/-- `user.notifications.email`: channel flag and fallback flag. -/
structure EmailSettings where
  enabled : Bool
  fallback : Bool
deriving DecidableEq

/-- The `notifications` sub-document of a user. -/
structure UserNotifications where
  webPush : WebPushSettings
  email : EmailSettings
deriving DecidableEq

/-- A `User` document (notification-relevant projection). -/
structure User where
  id : Nat
  username : String
  email : Option String
  notifications : UserNotifications
deriving DecidableEq

/-! ## Notification channel adapters (backend/services/notificationService.js)

The network transports are external: each send attempt's outside-world
behaviour is a parameter.  `web-push` reports an HTTP status code on success
and throws an error carrying `statusCode` on failure; either call site may
also throw an arbitrary error, which the orchestrator's `try/catch` turns
into a recorded message. -/

/-- Outcome of the underlying `webpush.sendNotification` call. -/
inductive WebPushOutcome
  | ok (statusCode : Nat)
  | err (statusCode : Nat)
deriving DecidableEq

/-- Behaviour of one invocation of `sendWebPush` as seen by the orchestrator:
either the adapter returns (with some transport outcome), or the invocation
itself throws with a message. -/
inductive PushBeh
  | result (o : WebPushOutcome)
  | thrown (msg : String)
deriving DecidableEq

/-- Outcome of the underlying `emailTransporter.sendMail` call. -/
inductive EmailOutcome
  | ok
  | err
deriving DecidableEq

/-- Behaviour of one invocation of `sendEmail` as seen by the orchestrator. -/
inductive EmailBeh
  | result (o : EmailOutcome)
  | thrown (msg : String)
deriving DecidableEq

/-- Result object returned by `sendWebPush` / `sendEmail`
(`{ success, error? }`; the `result`/`details` payloads are dropped). -/
structure SendResult where
  success : Bool
  error : Option String
deriving DecidableEq

/-- `NotificationService.sendWebPush`: returns success, or classifies the
thrown transport error — `statusCode` 410 or 404 means the subscription is no
longer valid (`'subscription_invalid'`), anything else is `'push_failed'`. -/
def sendWebPush : WebPushOutcome → SendResult
  | WebPushOutcome.ok _ => ⟨true, none⟩
  | WebPushOutcome.err c =>
      if c = 410 ∨ c = 404 then ⟨false, some "subscription_invalid"⟩
      else ⟨false, some "push_failed"⟩

/-- `NotificationService.sendEmail`: fails with `'email_not_configured'` when
no transporter is configured, otherwise succeeds or fails with
`'email_failed'`. -/
def sendEmail (configured : Bool) (o : EmailOutcome) : SendResult :=
  if !configured then ⟨false, some "email_not_configured"⟩
  else
    match o with
    | EmailOutcome.ok => ⟨true, none⟩
    | EmailOutcome.err => ⟨false, some "email_failed"⟩

/-! ## Delivery orchestrator (`sendReminderNotification`) -/

/-- One channel's entry in the orchestrator's `results` object
(`{ sent: false, error: null }` initially). -/
structure ChanRes where
  sent : Bool
  error : Option String
deriving DecidableEq

/-- The orchestrator's `results` object. -/
structure NotifyResults where
  webPush : ChanRes
  email : ChanRes
deriving DecidableEq

/-- Channels, for the trace of attempted sends. -/
inductive Chan
  | push
  | email
deriving DecidableEq

/-- The guard of the push block:
`user.notifications.webPush.enabled && user.notifications.webPush.subscription`. -/
def pushAttemptGuard (u : User) : Bool :=
  u.notifications.webPush.enabled && u.notifications.webPush.subscription.isSome

/-- The push block of `sendReminderNotification`: returns the
`results.webPush` entry, the updated reminder and user documents, and the
list of attempts made.  On success the reminder's
`notifications.webPush.sent`/`sentAt` are set; on failure only the `error`
fields are written, and a `'subscription_invalid'` failure additionally clears
`user.notifications.webPush.subscription`. -/
def pushPhase (pb : PushBeh) (r : Reminder) (u : User) (now : Int) :
    ChanRes × Reminder × User × List Chan :=
  if pushAttemptGuard u then
    match pb with
    | PushBeh.result o =>
        let pr := sendWebPush o
        if pr.success then
          (⟨true, none⟩,
           { r with notifications := { r.notifications with
               webPush := { r.notifications.webPush with
                 sent := true, sentAt := some now } } },
           u, [Chan.push])
        else
          let u' :=
            if pr.error = some "subscription_invalid" then
              { u with notifications := { u.notifications with
                  webPush := { u.notifications.webPush with subscription := none } } }
            else u
          (⟨false, pr.error⟩,
           { r with notifications := { r.notifications with
               webPush := { r.notifications.webPush with error := pr.error } } },
           u', [Chan.push])
    | PushBeh.thrown m =>
        (⟨false, some m⟩,
         { r with notifications := { r.notifications with
             webPush := { r.notifications.webPush with error := some m } } },
         u, [Chan.push])
  else (⟨false, none⟩, r, u, [])

/-- The `shouldSendEmail` expression of `sendReminderNotification`:
`user.notifications.email.enabled && (user.notifications.email.fallback &&
!results.webPush.sent || !user.notifications.webPush.enabled)`. -/
def shouldSendEmail (u : User) (pushSent : Bool) : Bool :=
  u.notifications.email.enabled &&
    ((u.notifications.email.fallback && !pushSent) || !u.notifications.webPush.enabled)

/-- The guard of the email block: `shouldSendEmail && user.email`. -/
def emailAttemptGuard (u : User) (pushSent : Bool) : Bool :=
  shouldSendEmail u pushSent && u.email.isSome

/-- The email block of `sendReminderNotification` (already past the
`shouldSendEmail && user.email` guard). -/
def emailPhase (configured : Bool) (ebh : EmailBeh) (r : Reminder) (now : Int) :
    ChanRes × Reminder × List Chan :=
  match ebh with
  | EmailBeh.result o =>
      let er := sendEmail configured o
      if er.success then
        (⟨true, none⟩,
         { r with notifications := { r.notifications with
             email := { r.notifications.email with
               sent := true, sentAt := some now } } },
         [Chan.email])
      else
        (⟨false, er.error⟩,
         { r with notifications := { r.notifications with
             email := { r.notifications.email with error := er.error } } },
         [Chan.email])
  | EmailBeh.thrown m =>
      (⟨false, some m⟩,
       { r with notifications := { r.notifications with
           email := { r.notifications.email with error := some m } } },
       [Chan.email])

/-- `NotificationService.sendReminderNotification(reminder, user)`: attempts
web push first (when enabled and subscribed), then email when
`shouldSendEmail && user.email` holds, records each channel's outcome both in
the returned `results` and on the reminder's per-channel delivery records, and
saves the updated documents.  Returns the results, the saved reminder and
user, and the trace of channel attempts. -/
def sendReminderNotification (configured : Bool) (pb : PushBeh) (ebh : EmailBeh)
    (r : Reminder) (u : User) (now : Int) :
    NotifyResults × Reminder × User × List Chan :=
  let pw := pushPhase pb r u now
  let pe :=
    if emailAttemptGuard u pw.1.sent then emailPhase configured ebh pw.2.1 now
    else (⟨false, none⟩, pw.2.1, [])
  (⟨pw.1, pe.1⟩, pe.2.1, pw.2.2.1, pw.2.2.2 ++ pe.2.2)

/-! ## Bulk delivery (`sendBulkNotifications`) and the scheduler tasks
(backend/services/schedulerService.js) -/

/-- One entry of the array returned by `sendBulkNotifications`. -/
structure BulkResult where
  reminderId : Nat
  success : Bool
  webPush : ChanRes
  email : ChanRes
deriving DecidableEq

/-- `users.find` by `_id`. -/
def lookupUser (us : List User) (uid : Nat) : Option User :=
  us.find? (fun u => u.id == uid)

/-- Persist an updated user document (`user.save()`): replace the stored
document with the same `_id`. -/
def saveUser (us : List User) (u' : User) : List User :=
  us.map (fun x => if x.id == u'.id then u' else x)

/-- Persist an updated reminder document (`reminder.save()`). -/
def saveReminder (rs : List Reminder) (r' : Reminder) : List Reminder :=
  rs.map (fun x => if x.id == r'.id then r' else x)

/-- `NotificationService.sendBulkNotifications(reminders)`: delivers each due
reminder in turn through `sendReminderNotification` with its populated owner,
collecting `{ reminderId, success: webPush.sent || email.sent, ...result }`
per reminder; a reminder whose delivery throws (here: a reminder whose owner
cannot be resolved) yields `{ success: false }` and leaves its documents
unchanged.  The per-attempt transport behaviours are keyed by reminder id.
Returns the result list, the delivered reminder documents in order, and the
updated user store.  `bulkStep` is the loop body for one due reminder. -/
def bulkStep (configured : Bool) (pb : Nat → PushBeh) (ebh : Nat → EmailBeh) (now : Int)
    (acc : List BulkResult × List Reminder × List User) (r : Reminder) :
    List BulkResult × List Reminder × List User :=
  match lookupUser acc.2.2 r.user with
  | none =>
      (acc.1 ++ [⟨r.id, false, ⟨false, none⟩, ⟨false, none⟩⟩],
       acc.2.1 ++ [r], acc.2.2)
  | some u =>
      let out := sendReminderNotification configured (pb r.id) (ebh r.id) r u now
      (acc.1 ++ [⟨r.id, out.1.webPush.sent || out.1.email.sent,
                  out.1.webPush, out.1.email⟩],
       acc.2.1 ++ [out.2.1], saveUser acc.2.2 out.2.2.1)

/-- `NotificationService.sendBulkNotifications(reminders)`: the fold of
`bulkStep` over the due reminders, starting from empty results and the
current user store. -/
def sendBulkNotifications (configured : Bool) (pb : Nat → PushBeh) (ebh : Nat → EmailBeh)
    (due : List Reminder) (us : List User) (now : Int) :
    List BulkResult × List Reminder × List User :=
  due.foldl (bulkStep configured pb ebh now) ([], [], us)

/-- The reset applied by `processDueReminders` to a delivered reminder that
was snoozed and is now due: `status = 'pending'`, `snoozeUntil = undefined`. -/
def resetSnoozed (r : Reminder) : Reminder :=
  { r with status := RStatus.pending
           metadata := { r.metadata with snoozeUntil := none } }

/-- The guard of the reset loop in `processDueReminders`:
`reminder.status === 'snoozed' && reminder.metadata.snoozeUntil &&
reminder.metadata.snoozeUntil <= new Date()`. -/
def snoozedNowDue (now : Int) (r : Reminder) : Bool :=
  r.status == RStatus.snoozed &&
    match r.metadata.snoozeUntil with
    | some s => s ≤ now
    | none => false

/-- The body of the post-delivery reset loop of `processDueReminders` for one
delivered reminder: when it was snoozed and its snooze has elapsed, persist
the pending/cleared version. -/
def resetStep (now : Int) (acc : List Reminder) (r : Reminder) : List Reminder :=
  if snoozedNowDue now r then saveReminder acc (resetSnoozed r) else acc

/-- `SchedulerService.processDueReminders`: scan for due reminders, dispatch
notifications for all of them via `sendBulkNotifications` (persisting the
updated documents), and only then reset each delivered reminder that was
snoozed and is now due back to `status = 'pending'` with `snoozeUntil`
cleared.  Returns the updated reminder store, the updated user store, and the
ids of the reminders dispatched this cycle. -/
def processDueReminders (configured : Bool) (pb : Nat → PushBeh) (ebh : Nat → EmailBeh)
    (rs : List Reminder) (us : List User) (now : Int) :
    List Reminder × List User × List Nat :=
  let due := findDueReminders rs now
  let bulk := sendBulkNotifications configured pb ebh due us now
  let rs1 := bulk.2.1.foldl saveReminder rs
  let rs2 := bulk.2.1.foldl (resetStep now) rs1
  (rs2, bulk.2.2, due.map (fun r => r.id))

/-! ## Recurrence processing (`processRecurringReminders`) -/

/-- The candidate filter of `processRecurringReminders`:
`recurrence.type ≠ 'none'`, `status = 'completed'`, `scheduledTime ≤ now`. -/
def isRecurCandidate (now : Int) (r : Reminder) : Bool :=
  (!(r.recurrence.type == RecType.none)) &&
  r.status == RStatus.completed &&
  r.scheduledTime ≤ now

/-- The duplicate check of `processRecurringReminders`: an existing reminder
with the same user, same title, same scheduled time and same recurrence
type. -/
def dupExists (s : List Reminder) (uid : Nat) (title : String)
    (sched : Int) (rt : RecType) : Bool :=
  s.any (fun x =>
    x.user == uid && x.title == title && x.scheduledTime == sched &&
    x.recurrence.type == rt)

/-- The next-occurrence document created by `processRecurringReminders`:
copies user, title, description, recurrence, tags and priority from the
parent, schedules it at the computed next occurrence, and starts from the
schema defaults elsewhere (`status = 'pending'`, fresh delivery records,
`metadata.source = 'recurring'`). -/
def mkNextReminder (parent : Reminder) (next : Int) (now : Int) : Reminder :=
  { id := 0
    user := parent.user
    title := parent.title
    description := parent.description
    scheduledTime := next
    recurrence := parent.recurrence
    tags := parent.tags
    priority := parent.priority
    status := RStatus.pending
    notifications := ⟨⟨false, none, none⟩, ⟨false, none, none⟩⟩
    sharing := ⟨false, none, none, none, none⟩
    metadata := ⟨none, none, 0, 0, "recurring"⟩
    updatedAt := now }

/-- The body of the loop in `processRecurringReminders` for one candidate:
compute the next occurrence, skip when the series is over or a duplicate
already exists in the store, otherwise create and save the next-occurrence
reminder. -/
def recurStep (now : Int) (acc : List Reminder) (r : Reminder) : List Reminder :=
  match r.generateNextOccurrence with
  | none => acc
  | some next =>
      if dupExists acc r.user r.title next r.recurrence.type then acc
      else acc ++ [mkNextReminder r next now]

/-- `SchedulerService.processRecurringReminders`: for every completed
recurring reminder whose scheduled time has passed, create its next occurrence
unless the series has terminated or a duplicate already exists. -/
def processRecurringReminders (rs : List Reminder) (now : Int) : List Reminder :=
  (rs.filter (isRecurCandidate now)).foldl (recurStep now) rs

/-! ## Cleanup (`cleanupExpiredData`) -/

/-- The share-expiry update of `cleanupExpiredData`: for shared reminders
whose `sharing.expiresAt` has passed, unset `shareToken`, `expiresAt`,
`sharedAt` and `sharedBy`, and set `sharing.isShared` to false. -/
def expireShare (now : Int) (r : Reminder) : Reminder :=
  if r.sharing.isShared &&
      (match r.sharing.expiresAt with
       | some e => e < now
       | none => false) then
    { r with sharing := ⟨false, none, none, none, none⟩ }
  else r

/-- Deletion filter: completed reminders with `metadata.completedAt` more
than 90 days old. -/
def isOldCompleted (now : Int) (r : Reminder) : Bool :=
  r.status == RStatus.completed &&
    match r.metadata.completedAt with
    | some t => t < now - 90 * msPerDay
    | none => false

/-- Deletion filter: cancelled reminders whose `updatedAt` is more than 30
days old. -/
def isOldCancelled (now : Int) (r : Reminder) : Bool :=
  r.status == RStatus.cancelled && r.updatedAt < now - 30 * msPerDay

/-- `SchedulerService.cleanupExpiredData`: expire stale share links, then
hard-delete completed reminders older than 90 days
(`metadata.completedAt < now − 90 days`, with `setDate(getDate() − 90)`
amounting to an exact 90-day offset in UTC) and cancelled reminders older
than 30 days (`updatedAt < now − 30 days`). -/
def cleanupExpiredData (rs : List Reminder) (now : Int) : List Reminder :=
  let rs1 := rs.map (expireShare now)
  let rs2 := rs1.filter (fun r => !isOldCompleted now r)
  rs2.filter (fun r => !isOldCancelled now r)

/-! ## Spec-side definition for the email-decision refinement claim -/

/-- Modelled from the spec's words, for comparison with the code's
`shouldSendEmail`: "send iff (user.email.enabled AND user.email.fallback AND
push did not succeed) OR (push channel entirely disabled for user)". -/
def specEmailDecision (u : User) (pushSent : Bool) : Bool :=
  (u.notifications.email.enabled && u.notifications.email.fallback && !pushSent) ||
  !u.notifications.webPush.enabled

/-! ## Derived predicates used in specifications -/

/-- The due filter, as a proposition. -/
def DueProp (now : Int) (r : Reminder) : Prop :=
  (r.status = RStatus.pending ∧ r.scheduledTime ≤ now) ∨
  (r.status = RStatus.snoozed ∧ ∃ s, r.metadata.snoozeUntil = some s ∧ s ≤ now)

/-- The cleanup deletion condition, as a proposition: completed more than 90
days ago, or cancelled and last updated more than 30 days ago. -/
def DeleteProp (now : Int) (r : Reminder) : Prop :=
  (r.status = RStatus.completed ∧
    ∃ t, r.metadata.completedAt = some t ∧ t < now - 90 * msPerDay) ∨
  (r.status = RStatus.cancelled ∧ r.updatedAt < now - 30 * msPerDay)

/-- The projection of a reminder relevant to the snooze-reset claim: identity,
lifecycle status and snooze deadline.  Delivery only ever writes the
`notifications` sub-document, so this projection is invariant under it. -/
def rkey (r : Reminder) : Nat × RStatus × Option Int :=
  (r.id, r.status, r.metadata.snoozeUntil)

/-! ## Sample documents for concrete evaluations -/

/-- A fresh per-channel delivery record (schema defaults). -/
def freshDelivery : DeliveryRecord := ⟨false, none, none⟩

/-- Fresh reminder `notifications` sub-document. -/
def freshNotifs : ReminderNotifs := ⟨freshDelivery, freshDelivery⟩

/-- Fresh `sharing` sub-document. -/
def freshSharing : Sharing := ⟨false, none, none, none, none⟩

/-- Fresh `metadata` sub-document. -/
def freshMeta : RMetadata := ⟨none, none, 0, 0, "manual"⟩

/-- A plain non-recurring pending reminder scheduled at the epoch. -/
def sampleReminder : Reminder :=
  ⟨1, 7, "standup", none, 0, ⟨RecType.none, 1, [], none, none⟩, [], "medium",
   RStatus.pending, freshNotifs, freshSharing, freshMeta, 0⟩

/-- A completed daily recurring reminder with `maxOccurrences = 3` and no
`endDate`, scheduled at the epoch. -/
def c1Parent : Reminder :=
  ⟨2, 7, "daily med", none, 0, ⟨RecType.daily, 1, [], none, some 3⟩, [], "medium",
   RStatus.completed, freshNotifs, freshSharing, freshMeta, 0⟩

/-- A user with both channels disabled (but an email address on file) and the
email fallback flag on. -/
def c2User : User :=
  ⟨7, "sara", some "sara@example.com", ⟨⟨false, none⟩, ⟨false, true⟩⟩⟩

/-- A user with push enabled and subscribed, email disabled. -/
def pushOnlyUser : User :=
  ⟨7, "sara", some "sara@example.com", ⟨⟨true, some 42⟩, ⟨false, false⟩⟩⟩

/-- A pending reminder carrying a stale `notifications.webPush.error` from an
earlier failed attempt. -/
def c3Reminder : Reminder :=
  ⟨3, 7, "standup", none, 0, ⟨RecType.none, 1, [], none, none⟩, [], "medium",
   RStatus.pending, ⟨⟨false, none, some "push_failed"⟩, freshDelivery⟩,
   freshSharing, freshMeta, 0⟩

/-- A snoozed reminder whose snooze elapsed at the epoch. -/
def c6Snoozed : Reminder :=
  ⟨5, 7, "nap", none, 0, ⟨RecType.none, 1, [], none, none⟩, [], "medium",
   RStatus.snoozed, freshNotifs, freshSharing, ⟨none, some 0, 1, 0, "manual"⟩, 0⟩

/-- A reminder completed 91 days before day 100 (i.e. `completedAt` at day 9). -/
def c9Old : Reminder :=
  ⟨1, 7, "old", none, 0, ⟨RecType.none, 1, [], none, none⟩, [], "medium",
   RStatus.completed, freshNotifs, freshSharing,
   ⟨some (9 * msPerDay), none, 0, 0, "manual"⟩, 0⟩

/-- A reminder completed 89 days before day 100 (i.e. `completedAt` at day 11). -/
def c9Young : Reminder :=
  ⟨2, 7, "young", none, 0, ⟨RecType.none, 1, [], none, none⟩, [], "medium",
   RStatus.completed, freshNotifs, freshSharing,
   ⟨some (11 * msPerDay), none, 0, 0, "manual"⟩, 0⟩

end Notifaref

namespace Notifaref

/-! ## Theorems -/

theorem isDueQuery_iff (now : Int) (r : Reminder) :
    isDueQuery now r = true ↔ DueProp now r := by
  unfold isDueQuery DueProp
  cases h : r.metadata.snoozeUntil <;> simp [h]

/-- C10: `reminder.snooze()` (default 15 minutes) and `reminder.snooze(m)`
set `status = 'snoozed'`, set `snoozeUntil` to exactly now + 15 (resp. `m`)
minutes, increment `snoozeCount` by exactly one, and leave `scheduledTime`
unchanged. -/
theorem c10_snooze_semantics (r : Reminder) (now : Int) (m : Nat) :
    (r.snoozeDefault now).status = RStatus.snoozed ∧
    (r.snoozeDefault now).metadata.snoozeUntil = some (now + 900000) ∧
    (r.snoozeDefault now).metadata.snoozeCount = r.metadata.snoozeCount + 1 ∧
    (r.snoozeDefault now).scheduledTime = r.scheduledTime ∧
    (r.snooze now m).status = RStatus.snoozed ∧
    (r.snooze now m).metadata.snoozeUntil = some (now + (m : Int) * 60 * 1000) ∧
    (r.snooze now m).metadata.snoozeCount = r.metadata.snoozeCount + 1 ∧
    (r.snooze now m).scheduledTime = r.scheduledTime := by
  refine ⟨rfl, ?_, rfl, rfl, rfl, rfl, rfl, rfl⟩
  simp [Reminder.snoozeDefault, Reminder.snooze]

/-- C1: `generateNextOccurrence` never reads `recurrence.maxOccurrences`
(changing the field never changes the result), and on a concrete completed
daily series with `maxOccurrences = 3` and no `endDate` it still returns a
next instant (one day later) no matter how many occurrences the series has
already emitted — so the series is never terminated by `maxOccurrences`,
contrary to the documented behaviour. -/
theorem c1_generateNextOccurrence_ignores_maxOccurrences :
    (∀ (r : Reminder) (mo : Option Nat),
       (Reminder.generateNextOccurrence
        { r with recurrence := { r.recurrence with maxOccurrences := mo } }) =
        r.generateNextOccurrence) ∧
    c1Parent.recurrence.maxOccurrences = some 3 ∧
    c1Parent.generateNextOccurrence = some 86400000 := by
  refine ⟨fun r mo => rfl, rfl, by decide⟩

/-- C5: the due scan is exactly the due filter — a sublist of the store (it
mutates nothing and returns the stored documents themselves), membership is
characterised by (pending ∧ scheduledTime ≤ now) ∨ (snoozed ∧ snoozeUntil ≤
now), and when nothing matches the result is the empty list. -/
theorem c5_findDueReminders_spec (rs : List Reminder) (now : Int) :
    (findDueReminders rs now).Sublist rs ∧
    (∀ r : Reminder, r ∈ findDueReminders rs now ↔ r ∈ rs ∧ DueProp now r) ∧
    ((∀ r ∈ rs, ¬ DueProp now r) → findDueReminders rs now = []) := by
  refine ⟨List.filter_sublist rs, ?_, ?_⟩
  · intro r
    simp [findDueReminders, List.mem_filter, isDueQuery_iff]
  · intro h
    apply List.filter_eq_nil_iff.mpr
    intro r hr
    intro hq
    exact h r hr ((isDueQuery_iff now r).mp hq)

/-- Witness for C5 at a concrete store: the sample pending reminder scheduled
at the epoch is due at time 0, and a store with no due reminder scans to the
empty list. -/
theorem c5_findDueReminders_spec_witness :
    (sampleReminder ∈ findDueReminders [sampleReminder] 0 ↔
      sampleReminder ∈ [sampleReminder] ∧ DueProp 0 sampleReminder) ∧
    findDueReminders [sampleReminder] (-1) = [] := by
  constructor
  · exact (c5_findDueReminders_spec [sampleReminder] 0).2.1 sampleReminder
  · apply (c5_findDueReminders_spec [sampleReminder] (-1)).2.2
    intro r hr hd
    simp only [List.mem_singleton] at hr
    subst hr
    rcases hd with ⟨_, hle⟩ | ⟨hs, _⟩
    · exact absurd hle (by decide)
    · exact absurd hs (by decide)

theorem expireShare_proj (now : Int) (r : Reminder) :
    (expireShare now r).id = r.id ∧ (expireShare now r).status = r.status ∧
    (expireShare now r).metadata = r.metadata ∧
    (expireShare now r).updatedAt = r.updatedAt := by
  unfold expireShare
  split <;> exact ⟨rfl, rfl, rfl, rfl⟩

theorem deleteQuery_iff (now : Int) (r : Reminder) :
    (isOldCompleted now r || isOldCancelled now r) = true ↔ DeleteProp now r := by
  unfold isOldCompleted isOldCancelled DeleteProp
  cases h : r.metadata.completedAt <;> simp [h]

theorem deleteQuery_expireShare (now : Int) (r : Reminder) :
    (isOldCompleted now (expireShare now r) || isOldCancelled now (expireShare now r)) =
      (isOldCompleted now r || isOldCancelled now r) := by
  obtain ⟨_, hst, hmd, hup⟩ := expireShare_proj now r
  unfold isOldCompleted isOldCancelled
  rw [hst, hmd, hup]

/-- C9: the daily cleanup hard-deletes exactly the completed reminders whose
`completedAt` is more than 90 days in the past and the cancelled reminders
more than 30 days old, and retains every younger reminder (with its status
and metadata intact). -/
theorem c9_cleanup_retention (rs : List Reminder) (now : Int)
    (hnd : (rs.map (fun r => r.id)).Nodup) :
    ∀ r ∈ rs,
      (DeleteProp now r → ∀ r' ∈ cleanupExpiredData rs now, r'.id ≠ r.id) ∧
      (¬ DeleteProp now r → ∃ r' ∈ cleanupExpiredData rs now,
          r'.id = r.id ∧ r'.status = r.status ∧ r'.metadata = r.metadata) := by
  intro r hr
  have hmem : ∀ r', r' ∈ cleanupExpiredData rs now ↔
      ∃ x ∈ rs, expireShare now x = r' ∧
        (isOldCompleted now x || isOldCancelled now x) = false := by
    intro r'
    unfold cleanupExpiredData
    simp only [List.mem_filter, List.mem_map, Bool.not_eq_true']
    constructor
    · rintro ⟨⟨⟨x, hx, hxe⟩, h1⟩, h2⟩
      refine ⟨x, hx, hxe, ?_⟩
      have := deleteQuery_expireShare now x
      rw [hxe] at this
      rw [← this, h1, h2]
      rfl
    · rintro ⟨x, hx, hxe, hq⟩
      have := deleteQuery_expireShare now x
      rw [hxe] at this
      rw [hq] at this
      rcases Bool.or_eq_false_iff.mp this with ⟨h1, h2⟩
      exact ⟨⟨⟨x, hx, hxe⟩, h1⟩, h2⟩
  constructor
  · intro hdel r' hr' heq
    obtain ⟨x, hx, hxe, hq⟩ := (hmem r').mp hr'
    have hxid : x.id = r.id := by
      have := (expireShare_proj now x).1
      rw [hxe] at this
      rw [← this, heq]
    have hxr : x = r :=
      List.inj_on_of_nodup_map hnd hx hr hxid
    subst hxr
    have : DeleteProp now x := hdel
    rw [← deleteQuery_iff now x] at this
    rw [this] at hq
    exact Bool.true_eq_false.mp hq
  · intro hkeep
    have hq : (isOldCompleted now r || isOldCancelled now r) = false := by
      by_contra hq
      exact hkeep ((deleteQuery_iff now r).mp (Bool.of_not_eq_false hq))
    refine ⟨expireShare now r, (hmem _).mpr ⟨r, hr, rfl, hq⟩, ?_⟩
    obtain ⟨h1, h2, h3, _⟩ := expireShare_proj now r
    exact ⟨h1, h2, h3⟩

/-- Witness for C9: at day 100, a reminder completed on day 9 (91 days old)
is deleted while one completed on day 11 (89 days old) is retained. -/
theorem c9_cleanup_retention_witness :
    (∀ r' ∈ cleanupExpiredData [c9Old, c9Young] (100 * msPerDay), r'.id ≠ c9Old.id) ∧
    (∃ r' ∈ cleanupExpiredData [c9Old, c9Young] (100 * msPerDay),
        r'.id = c9Young.id ∧ r'.status = c9Young.status ∧
        r'.metadata = c9Young.metadata) := by
  constructor
  · exact (c9_cleanup_retention [c9Old, c9Young] (100 * msPerDay) (by decide)
      c9Old (by decide)).1
      (Or.inl ⟨rfl, 9 * msPerDay, rfl, by decide⟩)
  · refine (c9_cleanup_retention [c9Old, c9Young] (100 * msPerDay) (by decide)
      c9Young (by decide)).2 ?_
    rintro (⟨_, t, ht, hlt⟩ | ⟨hst, _⟩)
    · rw [show c9Young.metadata.completedAt = some (11 * msPerDay) from rfl] at ht
      cases ht
      revert hlt
      decide
    · exact absurd hst (by decide)

/-! ### Orchestrator helper lemmas -/

theorem pushPhase_trace (pb : PushBeh) (r : Reminder) (u : User) (now : Int) :
    (pushPhase pb r u now).2.2.2 = if pushAttemptGuard u then [Chan.push] else [] := by
  by_cases h : pushAttemptGuard u = true
  · cases pb with
    | result o => by_cases hs : (sendWebPush o).success = true <;> simp [pushPhase, h, hs]
    | thrown m => simp [pushPhase, h]
  · simp [pushPhase, h]

theorem emailPhase_trace (configured : Bool) (ebh : EmailBeh) (r : Reminder) (now : Int) :
    (emailPhase configured ebh r now).2.2 = [Chan.email] := by
  cases ebh with
  | result o => by_cases hs : (sendEmail configured o).success = true <;> simp [emailPhase, hs]
  | thrown m => simp [emailPhase]

theorem pushPhase_email_record (pb : PushBeh) (r : Reminder) (u : User) (now : Int) :
    (pushPhase pb r u now).2.1.notifications.email = r.notifications.email := by
  by_cases h : pushAttemptGuard u = true
  · cases pb with
    | result o => by_cases hs : (sendWebPush o).success = true <;> simp [pushPhase, h, hs]
    | thrown m => simp [pushPhase, h]
  · simp [pushPhase, h]

theorem emailPhase_webPush_record (configured : Bool) (ebh : EmailBeh) (r : Reminder)
    (now : Int) :
    (emailPhase configured ebh r now).2.1.notifications.webPush =
      r.notifications.webPush := by
  cases ebh with
  | result o => by_cases hs : (sendEmail configured o).success = true <;> simp [emailPhase, hs]
  | thrown m => simp [emailPhase]

theorem srn_results_webPush (configured : Bool) (pb : PushBeh) (ebh : EmailBeh)
    (r : Reminder) (u : User) (now : Int) :
    (sendReminderNotification configured pb ebh r u now).1.webPush =
      (pushPhase pb r u now).1 := rfl

theorem srn_user (configured : Bool) (pb : PushBeh) (ebh : EmailBeh)
    (r : Reminder) (u : User) (now : Int) :
    (sendReminderNotification configured pb ebh r u now).2.2.1 =
      (pushPhase pb r u now).2.2.1 := rfl

theorem srn_trace (configured : Bool) (pb : PushBeh) (ebh : EmailBeh)
    (r : Reminder) (u : User) (now : Int) :
    (sendReminderNotification configured pb ebh r u now).2.2.2 =
      (pushPhase pb r u now).2.2.2 ++
        (if emailAttemptGuard u (pushPhase pb r u now).1.sent then
          (emailPhase configured ebh (pushPhase pb r u now).2.1 now).2.2
         else []) := by
  by_cases h : emailAttemptGuard u (pushPhase pb r u now).1.sent = true <;>
    simp [sendReminderNotification, h]

theorem srn_reminder (configured : Bool) (pb : PushBeh) (ebh : EmailBeh)
    (r : Reminder) (u : User) (now : Int) :
    (sendReminderNotification configured pb ebh r u now).2.1 =
      (if emailAttemptGuard u (pushPhase pb r u now).1.sent then
        (emailPhase configured ebh (pushPhase pb r u now).2.1 now).2.1
       else (pushPhase pb r u now).2.1) := by
  by_cases h : emailAttemptGuard u (pushPhase pb r u now).1.sent = true <;>
    simp [sendReminderNotification, h]

theorem srn_results_email (configured : Bool) (pb : PushBeh) (ebh : EmailBeh)
    (r : Reminder) (u : User) (now : Int) :
    (sendReminderNotification configured pb ebh r u now).1.email =
      (if emailAttemptGuard u (pushPhase pb r u now).1.sent then
        (emailPhase configured ebh (pushPhase pb r u now).2.1 now).1
       else ⟨false, none⟩) := by
  by_cases h : emailAttemptGuard u (pushPhase pb r u now).1.sent = true <;>
    simp [sendReminderNotification, h]

theorem no_push_attempt_of_guard_false (configured : Bool) (pb : PushBeh) (ebh : EmailBeh)
    (r : Reminder) (u : User) (now : Int) (h : pushAttemptGuard u = false) :
    Chan.push ∉ (sendReminderNotification configured pb ebh r u now).2.2.2 := by
  rw [srn_trace, pushPhase_trace, h]
  by_cases he : emailAttemptGuard u (pushPhase pb r u now).1.sent = true <;>
    simp [he, emailPhase_trace]

/-! ### C2: email fallback decision -/

/-- C2 counterexample: for a user whose push channel is entirely disabled but
whose email channel is also disabled (with an email address on file), the
claim's formula "(email.enabled AND email.fallback AND push did not succeed)
OR (push channel entirely disabled)" holds — push was not attempted, hence
did not succeed — yet the orchestrator attempts no email send.  The claimed
"if and only if" is therefore false at this input. -/
theorem c2_counterexample_email_decision :
    specEmailDecision c2User false = true ∧
    (sendReminderNotification true (PushBeh.result (WebPushOutcome.ok 201))
      (EmailBeh.result EmailOutcome.ok) sampleReminder c2User 0).1.webPush.sent = false ∧
    Chan.email ∉ (sendReminderNotification true (PushBeh.result (WebPushOutcome.ok 201))
      (EmailBeh.result EmailOutcome.ok) sampleReminder c2User 0).2.2.2 := by
  refine ⟨rfl, rfl, ?_⟩
  decide

/-- C2 (amended): provided the user record has an email address, the
orchestrator attempts the email channel iff `user.email.enabled` AND
((`user.email.fallback` AND push did not succeed) OR the push channel is
entirely disabled) — i.e. `email.enabled` also guards the push-disabled
branch — and when email is attempted it is attempted exactly once per
delivery. -/
theorem c2_email_fallback_contract (configured : Bool) (pb : PushBeh) (ebh : EmailBeh)
    (r : Reminder) (u : User) (now : Int) (he : u.email.isSome = true) :
    ((Chan.email ∈ (sendReminderNotification configured pb ebh r u now).2.2.2) ↔
      (u.notifications.email.enabled = true ∧
        ((u.notifications.email.fallback = true ∧
           (sendReminderNotification configured pb ebh r u now).1.webPush.sent = false) ∨
         u.notifications.webPush.enabled = false))) ∧
    (sendReminderNotification configured pb ebh r u now).2.2.2.count Chan.email =
      (if Chan.email ∈ (sendReminderNotification configured pb ebh r u now).2.2.2
       then 1 else 0) := by
  have htr := srn_trace configured pb ebh r u now
  have hw := srn_results_webPush configured pb ebh r u now
  constructor
  · rw [htr, hw, pushPhase_trace]
    unfold emailAttemptGuard shouldSendEmail
    rw [he]
    by_cases hp : pushAttemptGuard u = true <;>
      by_cases hs : (pushPhase pb r u now).1.sent = true <;>
      by_cases hee : u.notifications.email.enabled = true <;>
      by_cases hf : u.notifications.email.fallback = true <;>
      by_cases hpe : u.notifications.webPush.enabled = true <;>
        simp [hp, hs, hee, hf, hpe, emailPhase_trace]
  · rw [htr, pushPhase_trace]
    by_cases hg : emailAttemptGuard u (pushPhase pb r u now).1.sent = true <;>
      by_cases hp : pushAttemptGuard u = true <;>
        simp [hg, hp, emailPhase_trace]

/-- Witness for C2 at a concrete input: a user with push disabled and email
enabled (fallback on) receives exactly one email attempt. -/
theorem c2_email_fallback_contract_witness :
    ((Chan.email ∈ (sendReminderNotification true (PushBeh.result (WebPushOutcome.ok 201))
        (EmailBeh.result EmailOutcome.ok) sampleReminder
        ⟨7, "sara", some "sara@example.com", ⟨⟨false, none⟩, ⟨true, true⟩⟩⟩ 0).2.2.2) ↔
      ((⟨7, "sara", some "sara@example.com",
          ⟨⟨false, none⟩, ⟨true, true⟩⟩⟩ : User).notifications.email.enabled = true ∧
        (((⟨7, "sara", some "sara@example.com",
            ⟨⟨false, none⟩, ⟨true, true⟩⟩⟩ : User).notifications.email.fallback = true ∧
           (sendReminderNotification true (PushBeh.result (WebPushOutcome.ok 201))
             (EmailBeh.result EmailOutcome.ok) sampleReminder
             ⟨7, "sara", some "sara@example.com",
              ⟨⟨false, none⟩, ⟨true, true⟩⟩⟩ 0).1.webPush.sent = false) ∨
         (⟨7, "sara", some "sara@example.com",
           ⟨⟨false, none⟩, ⟨true, true⟩⟩⟩ : User).notifications.webPush.enabled = false))) ∧
    (sendReminderNotification true (PushBeh.result (WebPushOutcome.ok 201))
      (EmailBeh.result EmailOutcome.ok) sampleReminder
      ⟨7, "sara", some "sara@example.com", ⟨⟨false, none⟩, ⟨true, true⟩⟩⟩ 0).2.2.2.count
        Chan.email =
      (if Chan.email ∈ (sendReminderNotification true (PushBeh.result (WebPushOutcome.ok 201))
          (EmailBeh.result EmailOutcome.ok) sampleReminder
          ⟨7, "sara", some "sara@example.com", ⟨⟨false, none⟩, ⟨true, true⟩⟩⟩ 0).2.2.2
       then 1 else 0) :=
  c2_email_fallback_contract true (PushBeh.result (WebPushOutcome.ok 201))
    (EmailBeh.result EmailOutcome.ok) sampleReminder
    ⟨7, "sara", some "sara@example.com", ⟨⟨false, none⟩, ⟨true, true⟩⟩⟩ 0 rfl

/-! ### C3: per-channel delivery records -/

/-- C3 counterexample: a reminder carrying a stale
`notifications.webPush.error` from an earlier failed attempt is delivered
successfully over push — the persisted record gets `sent = true` and a
`sentAt`, but the `error` field is *not* cleared: it still holds
`'push_failed'`. -/
theorem c3_counterexample_error_not_cleared :
    (sendReminderNotification true (PushBeh.result (WebPushOutcome.ok 201))
      (EmailBeh.result EmailOutcome.ok) c3Reminder pushOnlyUser 0).2.1.notifications.webPush.sent
        = true ∧
    (sendReminderNotification true (PushBeh.result (WebPushOutcome.ok 201))
      (EmailBeh.result EmailOutcome.ok) c3Reminder
      pushOnlyUser 0).2.1.notifications.webPush.error = some "push_failed" := by
  constructor <;> decide

/-- C3 (amended): for each channel of a delivered reminder, a successful send
sets that channel's per-reminder record to `sent = true` with `sentAt` set,
leaving the `error` field *unchanged* (it is not cleared); a failed send
records the failure reason in `error`, leaving `sent`/`sentAt` unchanged; an
unattempted channel's record is untouched; each channel's record update
depends only on that channel's outcome. -/
theorem c3_delivery_records (configured : Bool) (pb : PushBeh) (ebh : EmailBeh)
    (r : Reminder) (u : User) (now : Int) :
    (∀ o, pushAttemptGuard u = true → pb = PushBeh.result o →
      (sendWebPush o).success = true →
      (sendReminderNotification configured pb ebh r u now).2.1.notifications.webPush =
        ⟨true, some now, r.notifications.webPush.error⟩) ∧
    (∀ o, pushAttemptGuard u = true → pb = PushBeh.result o →
      (sendWebPush o).success = false →
      (sendReminderNotification configured pb ebh r u now).2.1.notifications.webPush =
        ⟨r.notifications.webPush.sent, r.notifications.webPush.sentAt,
         (sendWebPush o).error⟩) ∧
    (∀ o, emailAttemptGuard u (pushPhase pb r u now).1.sent = true →
      ebh = EmailBeh.result o → (sendEmail configured o).success = true →
      (sendReminderNotification configured pb ebh r u now).2.1.notifications.email =
        ⟨true, some now, r.notifications.email.error⟩) ∧
    (∀ o, emailAttemptGuard u (pushPhase pb r u now).1.sent = true →
      ebh = EmailBeh.result o → (sendEmail configured o).success = false →
      (sendReminderNotification configured pb ebh r u now).2.1.notifications.email =
        ⟨r.notifications.email.sent, r.notifications.email.sentAt,
         (sendEmail configured o).error⟩) ∧
    (pushAttemptGuard u = false →
      (sendReminderNotification configured pb ebh r u now).2.1.notifications.webPush =
        r.notifications.webPush) ∧
    (emailAttemptGuard u (pushPhase pb r u now).1.sent = false →
      (sendReminderNotification configured pb ebh r u now).2.1.notifications.email =
        r.notifications.email) := by
  have hwrec : (sendReminderNotification configured pb ebh r u now).2.1.notifications.webPush =
      (pushPhase pb r u now).2.1.notifications.webPush := by
    rw [srn_reminder]
    split
    · exact emailPhase_webPush_record configured ebh (pushPhase pb r u now).2.1 now
    · rfl
  refine ⟨?_, ?_, ?_, ?_, ?_, ?_⟩
  · intro o hg hpb hs
    subst hpb
    rw [hwrec]
    simp [pushPhase, hg, hs]
  · intro o hg hpb hs
    subst hpb
    rw [hwrec]
    simp [pushPhase, hg, hs]
  · intro o hg hpb hs
    subst hpb
    rw [srn_reminder, if_pos hg]
    simp [emailPhase, hs, pushPhase_email_record]
  · intro o hg hpb hs
    subst hpb
    rw [srn_reminder, if_pos hg]
    simp [emailPhase, hs, pushPhase_email_record]
  · intro hg
    rw [hwrec]
    simp [pushPhase, hg]
  · intro hg
    rw [srn_reminder, if_neg (by simp [hg]), pushPhase_email_record]

/-- Witness for C3 at a concrete input: delivering the stale-error reminder
to a push-enabled user with a successful transport yields the record
`⟨true, some 0, old error⟩`. -/
theorem c3_delivery_records_witness :
    (sendReminderNotification true (PushBeh.result (WebPushOutcome.ok 201))
      (EmailBeh.result EmailOutcome.ok) c3Reminder pushOnlyUser 0).2.1.notifications.webPush =
      ⟨true, some 0, c3Reminder.notifications.webPush.error⟩ :=
  (c3_delivery_records true (PushBeh.result (WebPushOutcome.ok 201))
    (EmailBeh.result EmailOutcome.ok) c3Reminder pushOnlyUser 0).1
    (WebPushOutcome.ok 201) rfl rfl rfl

/-! ### C4: invalid-subscription self-healing -/

/-- C4: when push is attempted and the endpoint rejects the subscription with
HTTP 404 or 410, the failure is classified `'subscription_invalid'` and the
user's stored subscription is cleared, after which no later delivery attempts
push for that user (for any reminder, any transport behaviour) until they
re-subscribe; any other status code is classified `'push_failed'` and the
user document — subscription included — is left untouched. -/
theorem c4_invalid_subscription_selfhealing (configured : Bool) (ebh : EmailBeh)
    (r : Reminder) (u : User) (now : Int) (c : Nat)
    (hg : pushAttemptGuard u = true) :
    ((c = 404 ∨ c = 410) →
      (sendReminderNotification configured (PushBeh.result (WebPushOutcome.err c)) ebh
        r u now).1.webPush.error = some "subscription_invalid" ∧
      (sendReminderNotification configured (PushBeh.result (WebPushOutcome.err c)) ebh
        r u now).2.2.1.notifications.webPush.subscription = none ∧
      (∀ (c2 : Bool) (pb2 : PushBeh) (ebh2 : EmailBeh) (r2 : Reminder) (now2 : Int),
        Chan.push ∉ (sendReminderNotification c2 pb2 ebh2 r2
          (sendReminderNotification configured (PushBeh.result (WebPushOutcome.err c)) ebh
            r u now).2.2.1 now2).2.2.2)) ∧
    (¬(c = 404 ∨ c = 410) →
      (sendReminderNotification configured (PushBeh.result (WebPushOutcome.err c)) ebh
        r u now).1.webPush.error = some "push_failed" ∧
      (sendReminderNotification configured (PushBeh.result (WebPushOutcome.err c)) ebh
        r u now).2.2.1 = u) := by
  constructor
  · intro hc
    have hc' : (c = 410 ∨ c = 404) := hc.symm
    have hsw : sendWebPush (WebPushOutcome.err c) =
        ⟨false, some "subscription_invalid"⟩ := by
      simp [sendWebPush, hc']
    have hu : (sendReminderNotification configured (PushBeh.result (WebPushOutcome.err c))
        ebh r u now).2.2.1 =
        { u with notifications := { u.notifications with
            webPush := { u.notifications.webPush with subscription := none } } } := by
      rw [srn_user]
      simp [pushPhase, hg, hsw]
    refine ⟨?_, ?_, ?_⟩
    · rw [srn_results_webPush]
      simp [pushPhase, hg, hsw]
    · rw [hu]
    · intro c2 pb2 ebh2 r2 now2
      apply no_push_attempt_of_guard_false
      rw [hu]
      unfold pushAttemptGuard
      simp
  · intro hc
    have hc' : ¬(c = 410 ∨ c = 404) := fun h => hc h.symm
    have hsw : sendWebPush (WebPushOutcome.err c) = ⟨false, some "push_failed"⟩ := by
      simp [sendWebPush, hc']
    constructor
    · rw [srn_results_webPush]
      simp [pushPhase, hg, hsw]
    · rw [srn_user]
      simp [pushPhase, hg, hsw]

/-- Witness for C4 at a concrete input: a 404 rejection clears the
subscription of the push-enabled user and classifies the failure as
`'subscription_invalid'`. -/
theorem c4_invalid_subscription_selfhealing_witness :
    (sendReminderNotification true (PushBeh.result (WebPushOutcome.err 404))
      (EmailBeh.result EmailOutcome.ok) sampleReminder
      pushOnlyUser 0).1.webPush.error = some "subscription_invalid" ∧
    (sendReminderNotification true (PushBeh.result (WebPushOutcome.err 404))
      (EmailBeh.result EmailOutcome.ok) sampleReminder
      pushOnlyUser 0).2.2.1.notifications.webPush.subscription = none ∧
    (∀ (c2 : Bool) (pb2 : PushBeh) (ebh2 : EmailBeh) (r2 : Reminder) (now2 : Int),
      Chan.push ∉ (sendReminderNotification c2 pb2 ebh2 r2
        (sendReminderNotification true (PushBeh.result (WebPushOutcome.err 404))
          (EmailBeh.result EmailOutcome.ok) sampleReminder
          pushOnlyUser 0).2.2.1 now2).2.2.2) :=
  (c4_invalid_subscription_selfhealing true (EmailBeh.result EmailOutcome.ok)
    sampleReminder pushOnlyUser 0 404 rfl).1 (Or.inl rfl)

/-! ### C8: error aggregation, no exception escapes the orchestrator -/

theorem bulk_success_aux (configured : Bool) (pbf : Nat → PushBeh) (ebf : Nat → EmailBeh)
    (now : Int) :
    ∀ (due : List Reminder) (acc : List BulkResult × List Reminder × List User),
      (∀ b ∈ acc.1, b.success = (b.webPush.sent || b.email.sent)) →
      ∀ b ∈ (due.foldl (bulkStep configured pbf ebf now) acc).1,
        b.success = (b.webPush.sent || b.email.sent) := by
  intro due
  induction due with
  | nil => intro acc h; simpa using h
  | cons r due ih =>
    intro acc h
    rw [List.foldl_cons]
    apply ih
    intro b hb
    unfold bulkStep at hb
    cases hl : lookupUser acc.2.2 r.user with
    | none =>
        rw [hl] at hb
        simp only [List.mem_append, List.mem_singleton] at hb
        rcases hb with hb | hb
        · exact h b hb
        · subst hb; rfl
    | some u =>
        rw [hl] at hb
        simp only [List.mem_append, List.mem_singleton] at hb
        rcases hb with hb | hb
        · exact h b hb
        · subst hb; rfl

/-- C8: a channel invocation that throws is caught and recorded as that
channel's error (the orchestrator is a total function returning both channel
outcomes), and in the bulk dispatcher every reminder's overall `success` flag
equals `webPush.sent || email.sent` — success iff at least one channel
delivered. -/
theorem c8_orchestrator_total_aggregation (configured : Bool) (pb : PushBeh)
    (ebh : EmailBeh) (r : Reminder) (u : User) (now : Int) :
    (∀ m, pb = PushBeh.thrown m → pushAttemptGuard u = true →
      (sendReminderNotification configured pb ebh r u now).1.webPush = ⟨false, some m⟩) ∧
    (∀ m, ebh = EmailBeh.thrown m →
      emailAttemptGuard u (pushPhase pb r u now).1.sent = true →
      (sendReminderNotification configured pb ebh r u now).1.email = ⟨false, some m⟩) ∧
    (∀ (due : List Reminder) (us : List User) (pbf : Nat → PushBeh)
        (ebf : Nat → EmailBeh),
      ∀ b ∈ (sendBulkNotifications configured pbf ebf due us now).1,
        b.success = (b.webPush.sent || b.email.sent)) := by
  refine ⟨?_, ?_, ?_⟩
  · intro m hpb hg
    subst hpb
    rw [srn_results_webPush]
    simp [pushPhase, hg]
  · intro m hebh hg
    subst hebh
    rw [srn_results_email, if_pos hg]
    simp [emailPhase]
  · intro due us pbf ebf b hb
    exact bulk_success_aux configured pbf ebf now due ([], [], us) (by simp) b hb

/-- Witness for C8 at a concrete input: a push invocation that throws
`"boom"` against a push-enabled user is caught and recorded. -/
theorem c8_orchestrator_total_aggregation_witness :
    (sendReminderNotification true (PushBeh.thrown "boom")
      (EmailBeh.result EmailOutcome.ok) sampleReminder pushOnlyUser 0).1.webPush =
      ⟨false, some "boom"⟩ :=
  (c8_orchestrator_total_aggregation true (PushBeh.thrown "boom")
    (EmailBeh.result EmailOutcome.ok) sampleReminder pushOnlyUser 0).1 "boom" rfl rfl

/-! ### C7: recurrence-processing idempotence -/

theorem recurStep_append_only (now : Int) (acc : List Reminder) (r : Reminder) :
    ∃ ext, recurStep now acc r = acc ++ ext ∧
      ∀ x ∈ ext, x.status = RStatus.pending := by
  unfold recurStep
  cases r.generateNextOccurrence with
  | none => exact ⟨[], by simp, by simp⟩
  | some next =>
      by_cases h : dupExists acc r.user r.title next r.recurrence.type = true
      · exact ⟨[], by simp [h], by simp⟩
      · refine ⟨[mkNextReminder r next now], by simp [h], ?_⟩
        intro x hx
        rw [List.mem_singleton] at hx
        subst hx
        rfl

theorem recurFold_append_only (now : Int) :
    ∀ (l : List Reminder) (acc : List Reminder),
      ∃ ext, l.foldl (recurStep now) acc = acc ++ ext ∧
        ∀ x ∈ ext, x.status = RStatus.pending := by
  intro l
  induction l with
  | nil => exact fun acc => ⟨[], by simp, by simp⟩
  | cons r l ih =>
      intro acc
      obtain ⟨e1, he1, hp1⟩ := recurStep_append_only now acc r
      obtain ⟨e2, he2, hp2⟩ := ih (recurStep now acc r)
      refine ⟨e1 ++ e2, ?_, ?_⟩
      · rw [List.foldl_cons, he2, he1, List.append_assoc]
      · intro x hx
        rcases List.mem_append.mp hx with hx | hx
        · exact hp1 x hx
        · exact hp2 x hx

theorem mem_recurFold (now : Int) (l : List Reminder) (acc : List Reminder)
    (x : Reminder) (hx : x ∈ acc) : x ∈ l.foldl (recurStep now) acc := by
  obtain ⟨ext, he, _⟩ := recurFold_append_only now l acc
  rw [he]
  exact List.mem_append_left ext hx

theorem recurStep_none (now : Int) (acc : List Reminder) (r : Reminder)
    (h : r.generateNextOccurrence = none) : recurStep now acc r = acc := by
  unfold recurStep
  rw [h]

theorem recurStep_some (now : Int) (acc : List Reminder) (r : Reminder) (next : Int)
    (h : r.generateNextOccurrence = some next) :
    recurStep now acc r =
      if dupExists acc r.user r.title next r.recurrence.type then acc
      else acc ++ [mkNextReminder r next now] := by
  unfold recurStep
  rw [h]

theorem dupExists_iff (s : List Reminder) (uid : Nat) (title : String) (sched : Int)
    (rt : RecType) :
    dupExists s uid title sched rt = true ↔
      ∃ x ∈ s, x.user = uid ∧ x.title = title ∧ x.scheduledTime = sched ∧
        x.recurrence.type = rt := by
  unfold dupExists
  simp [List.any_eq_true, and_assoc]

theorem dupExists_mono (now : Int) (l : List Reminder) (acc : List Reminder)
    (uid : Nat) (title : String) (sched : Int) (rt : RecType)
    (h : dupExists acc uid title sched rt = true) :
    dupExists (l.foldl (recurStep now) acc) uid title sched rt = true := by
  rw [dupExists_iff] at h ⊢
  obtain ⟨x, hx, hp⟩ := h
  exact ⟨x, mem_recurFold now l acc x hx, hp⟩

theorem recurFold_dup_after (now : Int) :
    ∀ (l : List Reminder) (acc : List Reminder) (r : Reminder), r ∈ l →
      ∀ next, r.generateNextOccurrence = some next →
        dupExists (l.foldl (recurStep now) acc) r.user r.title next
          r.recurrence.type = true := by
  intro l
  induction l with
  | nil => intro acc r hr; cases hr
  | cons r0 l ih =>
      intro acc r hr next hnext
      rw [List.foldl_cons]
      rcases List.mem_cons.mp hr with hr | hr
      · subst hr
        apply dupExists_mono
        rw [recurStep_some now acc r next hnext]
        by_cases h : dupExists acc r.user r.title next r.recurrence.type = true
        · rw [if_pos h]; exact h
        · rw [if_neg h, dupExists_iff]
          exact ⟨mkNextReminder r next now, List.mem_append_right acc (by simp),
            rfl, rfl, rfl, rfl⟩
      · exact ih (recurStep now acc r0) r hr next hnext

theorem recurFold_id_of_dup (now : Int) :
    ∀ (l : List Reminder) (acc : List Reminder),
      (∀ r ∈ l, ∀ next, r.generateNextOccurrence = some next →
        dupExists acc r.user r.title next r.recurrence.type = true) →
      l.foldl (recurStep now) acc = acc := by
  intro l
  induction l with
  | nil => intro acc _; rfl
  | cons r0 l ih =>
      intro acc h
      have hstep : recurStep now acc r0 = acc := by
        cases hg : r0.generateNextOccurrence with
        | none => exact recurStep_none now acc r0 hg
        | some next =>
            rw [recurStep_some now acc r0 next hg,
              if_pos (h r0 (List.mem_cons_self r0 l) next hg)]
      rw [List.foldl_cons, hstep]
      exact ih acc (fun r hr => h r (List.mem_cons_of_mem r0 hr))

theorem isRecurCandidate_false_of_pending (now : Int) (x : Reminder)
    (h : x.status = RStatus.pending) : isRecurCandidate now x = false := by
  unfold isRecurCandidate
  rw [h]
  simp

theorem recur_candidates_stable (rs : List Reminder) (now : Int) :
    (processRecurringReminders rs now).filter (isRecurCandidate now) =
      rs.filter (isRecurCandidate now) := by
  unfold processRecurringReminders
  obtain ⟨ext, he, hp⟩ :=
    recurFold_append_only now (rs.filter (isRecurCandidate now)) rs
  rw [he, List.filter_append]
  have : ext.filter (isRecurCandidate now) = [] := by
    apply List.filter_eq_nil_iff.mpr
    intro x hx
    rw [isRecurCandidate_false_of_pending now x (hp x hx)]
    exact Bool.false_ne_true
  rw [this, List.append_nil]

/-- C7: the recurrence-processing task is idempotent — running it twice over
the same store creates nothing beyond the first run (the duplicate guard on
user/title/scheduledTime/recurrence-type fires) — and over a single completed
recurring parent with a live next occurrence and no pre-existing duplicate,
two runs leave exactly one reminder matching the next occurrence's key. -/
theorem c7_recurrence_idempotent (now : Int) :
    (∀ rs : List Reminder,
      processRecurringReminders (processRecurringReminders rs now) now =
        processRecurringReminders rs now) ∧
    (∀ (p : Reminder) (t : Int),
      isRecurCandidate now p = true →
      p.generateNextOccurrence = some t →
      dupExists [p] p.user p.title t p.recurrence.type = false →
      (processRecurringReminders (processRecurringReminders [p] now) now).countP
        (fun x => x.user == p.user && x.title == p.title &&
          x.scheduledTime == t && x.recurrence.type == p.recurrence.type) = 1) := by
  have hidem : ∀ rs : List Reminder,
      processRecurringReminders (processRecurringReminders rs now) now =
        processRecurringReminders rs now := by
    intro rs
    conv_lhs => rw [processRecurringReminders, recur_candidates_stable]
    apply recurFold_id_of_dup
    intro r hr next hnext
    unfold processRecurringReminders
    exact recurFold_dup_after now (rs.filter (isRecurCandidate now)) rs r hr next hnext
  constructor
  · exact hidem
  · intro p t hc hnext hdup
    rw [hidem [p]]
    have hone : processRecurringReminders [p] now = [p, mkNextReminder p t now] := by
      unfold processRecurringReminders
      rw [List.filter_cons_of_pos hc, List.filter_nil, List.foldl_cons, List.foldl_nil,
        recurStep_some now [p] p t hnext,
        if_neg (by rw [hdup]; exact Bool.false_ne_true)]
      rfl
    rw [hone]
    have hp0 : (p.user == p.user && p.title == p.title &&
        p.scheduledTime == t && p.recurrence.type == p.recurrence.type) = false := by
      have := hdup
      unfold dupExists at this
      simpa using this
    have hp1 : ((mkNextReminder p t now).user == p.user &&
        (mkNextReminder p t now).title == p.title &&
        (mkNextReminder p t now).scheduledTime == t &&
        (mkNextReminder p t now).recurrence.type == p.recurrence.type) = true := by
      simp [mkNextReminder]
    simp only [List.countP_cons, List.countP_nil]
    rw [hp0, hp1]
    rfl

/-! ### C6: snooze reset after dispatch -/

theorem pushPhase_preserves (pb : PushBeh) (r : Reminder) (u : User) (now : Int) :
    (pushPhase pb r u now).2.1.id = r.id ∧
    (pushPhase pb r u now).2.1.status = r.status ∧
    (pushPhase pb r u now).2.1.metadata = r.metadata := by
  by_cases h : pushAttemptGuard u = true
  · cases pb with
    | result o => by_cases hs : (sendWebPush o).success = true <;> simp [pushPhase, h, hs]
    | thrown m => simp [pushPhase, h]
  · simp [pushPhase, h]

theorem emailPhase_preserves (configured : Bool) (ebh : EmailBeh) (r : Reminder)
    (now : Int) :
    (emailPhase configured ebh r now).2.1.id = r.id ∧
    (emailPhase configured ebh r now).2.1.status = r.status ∧
    (emailPhase configured ebh r now).2.1.metadata = r.metadata := by
  cases ebh with
  | result o => by_cases hs : (sendEmail configured o).success = true <;> simp [emailPhase, hs]
  | thrown m => simp [emailPhase]

theorem srn_rkey (configured : Bool) (pb : PushBeh) (ebh : EmailBeh)
    (r : Reminder) (u : User) (now : Int) :
    rkey (sendReminderNotification configured pb ebh r u now).2.1 = rkey r := by
  obtain ⟨hp1, hp2, hp3⟩ := pushPhase_preserves pb r u now
  rw [srn_reminder]
  unfold rkey
  split
  · obtain ⟨he1, he2, he3⟩ :=
      emailPhase_preserves configured ebh (pushPhase pb r u now).2.1 now
    rw [he1, he2, he3, hp1, hp2, hp3]
  · rw [hp1, hp2, hp3]

theorem bulk_processed_keys (configured : Bool) (pbf : Nat → PushBeh)
    (ebf : Nat → EmailBeh) (now : Int) :
    ∀ (due : List Reminder) (acc : List BulkResult × List Reminder × List User),
      ((due.foldl (bulkStep configured pbf ebf now) acc).2.1).map rkey =
        acc.2.1.map rkey ++ due.map rkey := by
  intro due
  induction due with
  | nil => intro acc; simp
  | cons r due ih =>
      intro acc
      rw [List.foldl_cons, ih]
      have hstep : (bulkStep configured pbf ebf now acc r).2.1.map rkey =
          acc.2.1.map rkey ++ [rkey r] := by
        unfold bulkStep
        cases hl : lookupUser acc.2.2 r.user with
        | none => simp
        | some u => simp [srn_rkey]
      rw [hstep, List.map_cons, List.append_assoc, List.singleton_append]

theorem saveReminder_ids (rs : List Reminder) (w : Reminder) :
    (saveReminder rs w).map (fun x => x.id) = rs.map (fun x => x.id) := by
  unfold saveReminder
  rw [List.map_map]
  apply List.map_congr_left
  intro x _
  simp only [Function.comp]
  by_cases h : (x.id == w.id) = true
  · rw [if_pos h]
    exact (beq_iff_eq.mp h).symm
  · rw [if_neg h]

theorem foldl_saveReminder_ids (ws : List Reminder) :
    ∀ rs : List Reminder,
      (ws.foldl saveReminder rs).map (fun x => x.id) = rs.map (fun x => x.id) := by
  induction ws with
  | nil => intro rs; rfl
  | cons w ws ih =>
      intro rs
      rw [List.foldl_cons, ih, saveReminder_ids]

theorem resetStep_ids (now : Int) (rs : List Reminder) (w : Reminder) :
    (resetStep now rs w).map (fun x => x.id) = rs.map (fun x => x.id) := by
  unfold resetStep
  split
  · exact saveReminder_ids rs (resetSnoozed w)
  · rfl

theorem foldl_resetStep_ids (now : Int) (ws : List Reminder) :
    ∀ rs : List Reminder,
      (ws.foldl (resetStep now) rs).map (fun x => x.id) = rs.map (fun x => x.id) := by
  induction ws with
  | nil => intro rs; rfl
  | cons w ws ih =>
      intro rs
      rw [List.foldl_cons, ih, resetStep_ids]

theorem mem_saveReminder_self (rs : List Reminder) (w : Reminder)
    (h : ∃ x ∈ rs, x.id = w.id) : w ∈ saveReminder rs w := by
  obtain ⟨x, hx, hid⟩ := h
  refine List.mem_map.mpr ⟨x, hx, ?_⟩
  rw [if_pos (by rw [hid]; exact beq_self_eq_true w.id)]

theorem mem_saveReminder_of_ne (rs : List Reminder) (w y : Reminder)
    (hy : y ∈ rs) (hne : y.id ≠ w.id) : y ∈ saveReminder rs w := by
  refine List.mem_map.mpr ⟨y, hy, ?_⟩
  rw [if_neg (by simpa using hne)]

theorem mem_foldl_resetStep_of_ne (now : Int) (ws : List Reminder) :
    ∀ (acc : List Reminder) (y : Reminder), y ∈ acc →
      (∀ r ∈ ws, r.id ≠ y.id) → y ∈ ws.foldl (resetStep now) acc := by
  induction ws with
  | nil => intro acc y hy _; exact hy
  | cons w ws ih =>
      intro acc y hy h
      rw [List.foldl_cons]
      refine ih (resetStep now acc w) y ?_ (fun r hr => h r (List.mem_cons_of_mem w hr))
      unfold resetStep
      split
      · exact mem_saveReminder_of_ne acc (resetSnoozed w) y hy
          (fun he => h w (List.mem_cons_self w ws) he.symm)
      · exact hy

/-- C6: after one due-processing cycle over a store with distinct reminder
ids, every snoozed reminder whose `snoozeUntil` has elapsed is stored with
`status = 'pending'` and `snoozeUntil` cleared, and its id appears exactly
once in the cycle's dispatch list — it was delivered (before the reset, which
the cycle performs only after dispatching all notifications) and not
delivered a second time within the cycle. -/
theorem c6_snooze_reset_after_dispatch (configured : Bool) (pb : Nat → PushBeh)
    (ebh : Nat → EmailBeh) (rs : List Reminder) (us : List User) (now : Int)
    (hnd : (rs.map (fun x => x.id)).Nodup)
    (r : Reminder) (hr : r ∈ rs) (s : Int)
    (hst : r.status = RStatus.snoozed)
    (hsu : r.metadata.snoozeUntil = some s) (hle : s ≤ now) :
    (∃ r' ∈ (processDueReminders configured pb ebh rs us now).1,
        r'.id = r.id ∧ r'.status = RStatus.pending ∧
        r'.metadata.snoozeUntil = none) ∧
    (processDueReminders configured pb ebh rs us now).2.2.count r.id = 1 := by
  have hdueq : isDueQuery now r = true := by
    rw [isDueQuery_iff]
    exact Or.inr ⟨hst, s, hsu, hle⟩
  have hdue : r ∈ findDueReminders rs now :=
    List.mem_filter.mpr ⟨hr, hdueq⟩
  have hdueids : ((findDueReminders rs now).map (fun x => x.id)).Nodup :=
    ((List.filter_sublist rs).map (fun x => x.id)).nodup hnd
  constructor
  · -- membership with reset fields in the final store
    set due := findDueReminders rs now with hdued
    set bulk := sendBulkNotifications configured pb ebh due us now with hbulk
    have hkeys : bulk.2.1.map rkey = due.map rkey := by
      rw [hbulk]
      unfold sendBulkNotifications
      rw [bulk_processed_keys]
      rfl
    have hprocids : bulk.2.1.map (fun x => x.id) = due.map (fun x => x.id) := by
      have h1 : (bulk.2.1.map rkey).map (fun p => p.1) =
          (due.map rkey).map (fun p => p.1) := by rw [hkeys]
      rw [List.map_map, List.map_map] at h1
      exact h1
    -- the delivered copy of `r`
    have hrk : rkey r ∈ bulk.2.1.map rkey := by
      rw [hkeys]
      exact List.mem_map_of_mem rkey hdue
    obtain ⟨rP, hrP, hrPk⟩ := List.mem_map.mp hrk
    have hrPid : rP.id = r.id := congrArg (fun p => p.1) hrPk
    have hrPst : rP.status = r.status := congrArg (fun p => p.2.1) hrPk
    have hrPsu : rP.metadata.snoozeUntil = r.metadata.snoozeUntil :=
      congrArg (fun p => p.2.2) hrPk
    have hprocnd : (bulk.2.1.map (fun x => x.id)).Nodup := by
      rw [hprocids]; exact hdueids
    -- split the delivered list at `rP`
    obtain ⟨l1, l2, hsplit⟩ := List.append_of_mem hrP
    have hidsplit : (l1.map (fun x => x.id)) ++ rP.id :: (l2.map (fun x => x.id)) =
        bulk.2.1.map (fun x => x.id) := by
      rw [hsplit, List.map_append, List.map_cons]
    have hnds : ((l1.map (fun x => x.id)) ++ rP.id :: (l2.map (fun x => x.id))).Nodup := by
      rw [hidsplit]; exact hprocnd
    have hno1 : r.id ∉ l1.map (fun x => x.id) := by
      intro hmem
      have := (List.nodup_append.mp hnds).2.2
      exact this (by rwa [← hrPid] at hmem) (List.mem_cons_self rP.id _)
    have hno2 : r.id ∉ l2.map (fun x => x.id) := by
      have h2 := (List.nodup_append.mp hnds).2.1
      rw [List.nodup_cons] at h2
      intro hmem
      exact h2.1 (by rwa [← hrPid] at hmem)
    -- the first write-back pass preserves ids
    set rs1 := bulk.2.1.foldl saveReminder rs with hrs1
    have hrs1ids : rs1.map (fun x => x.id) = rs.map (fun x => x.id) :=
      foldl_saveReminder_ids bulk.2.1 rs
    -- run the reset pass, split at rP
    have hfinal : resetSnoozed rP ∈ bulk.2.1.foldl (resetStep now) rs1 := by
      rw [hsplit, List.foldl_append, List.foldl_cons]
      have hacc1ids : (l1.foldl (resetStep now) rs1).map (fun x => x.id) =
          rs.map (fun x => x.id) := by
        rw [foldl_resetStep_ids, hrs1ids]
      have hcond : snoozedNowDue now rP = true := by
        unfold snoozedNowDue
        rw [hrPst, hst, hrPsu, hsu]
        simp [hle]
      have hhit : resetSnoozed rP ∈
          resetStep now (l1.foldl (resetStep now) rs1) rP := by
        unfold resetStep
        rw [if_pos hcond]
        apply mem_saveReminder_self
        have : r.id ∈ (l1.foldl (resetStep now) rs1).map (fun x => x.id) := by
          rw [hacc1ids]
          exact List.mem_map_of_mem (fun x => x.id) hr
        obtain ⟨x, hx, hxid⟩ := List.mem_map.mp this
        exact ⟨x, hx, by rw [hxid]; exact hrPid.symm⟩
      refine mem_foldl_resetStep_of_ne now l2 _ (resetSnoozed rP) hhit ?_
      intro w hw he
      apply hno2
      have hwid : w.id = r.id := by
        rw [he]; exact hrPid
      exact hwid ▸ List.mem_map_of_mem (fun x => x.id) hw
    refine ⟨resetSnoozed rP, ?_, by rw [← hrPid]; rfl, rfl, rfl⟩
    exact hfinal
  · -- dispatched exactly once
    have hmem : r.id ∈ (findDueReminders rs now).map (fun x => x.id) :=
      List.mem_map_of_mem (fun x => x.id) hdue
    exact List.count_eq_one_of_mem hdueids hmem

/-- Witness for C6 at a concrete input: a snoozed reminder with
`snoozeUntil = 0` is reset to pending with `snoozeUntil` cleared by one cycle
at time 0 and dispatched exactly once. -/
theorem c6_snooze_reset_after_dispatch_witness :
    (∃ r' ∈ (processDueReminders true (fun _ => PushBeh.result (WebPushOutcome.ok 201))
        (fun _ => EmailBeh.result EmailOutcome.ok) [c6Snoozed] [pushOnlyUser] 0).1,
        r'.id = c6Snoozed.id ∧ r'.status = RStatus.pending ∧
        r'.metadata.snoozeUntil = none) ∧
    (processDueReminders true (fun _ => PushBeh.result (WebPushOutcome.ok 201))
      (fun _ => EmailBeh.result EmailOutcome.ok)
      [c6Snoozed] [pushOnlyUser] 0).2.2.count c6Snoozed.id = 1 :=
  c6_snooze_reset_after_dispatch true (fun _ => PushBeh.result (WebPushOutcome.ok 201))
    (fun _ => EmailBeh.result EmailOutcome.ok) [c6Snoozed] [pushOnlyUser] 0
    (by decide) c6Snoozed (List.mem_singleton.mpr rfl) 0 rfl rfl (by decide)

/-- Witness for C7 at a concrete input: two runs over the single completed
daily parent scheduled at the epoch leave exactly one reminder scheduled one
day later with the parent's user/title/recurrence type. -/
theorem c7_recurrence_idempotent_witness :
    (processRecurringReminders (processRecurringReminders [c1Parent] 0) 0).countP
      (fun x => x.user == c1Parent.user && x.title == c1Parent.title &&
        x.scheduledTime == (86400000 : Int) &&
        x.recurrence.type == c1Parent.recurrence.type) = 1 :=
  (c7_recurrence_idempotent 0).2 c1Parent 86400000 (by decide) (by decide) (by decide)

end Notifaref
